import Mathlib

/-!
Verification of the SCA training simulator backend (FastAPI + SQLAlchemy)
against its natural-language specification.

The relevant handlers and service functions are shallowly embedded as pure
Lean functions.  The database session is modelled as an explicit record of
row lists (`DB`, `RichDB`); committing an insert appends a row, a rollback
leaves the record unchanged.  External collaborators (the OpenAI scorer,
the auth service) are modelled as explicit input parameters carrying the
outcome of the external call; fresh row identifiers and timestamps, which
come from the (absent) `base_model` module, are likewise passed as
parameters.  JSON values are modelled by the inductive `Json`, with JSON
numbers as rationals.
-/

namespace SCA

/-- JSON values as handled by `json.loads` in the service layer.
Numbers are modelled as rationals; objects are ordered key-value lists,
mirroring Python dict insertion order. -/
inductive Json where
  | null : Json
  | bool (b : Bool) : Json
  | num (q : ℚ) : Json
  | str (s : String) : Json
  | arr (xs : List Json) : Json
  | obj (fields : List (String × Json)) : Json

/-- Lookup of a key in an ordered field list, mirroring Python dict access
(dict keys are unique, so first match suffices). -/
def lookupKey : List (String × Json) → String → Option Json
  | [], _ => none
  | (k1, v1) :: rest, k => if k1 = k then some v1 else lookupKey rest k

/-- Python dict assignment `d[k] = v`: replace the value at `k` if present,
otherwise append the new key at the end. -/
def setKey : List (String × Json) → String → Json → List (String × Json)
  | [], k, v => [(k, v)]
  | (k1, v1) :: rest, k, v =>
    if k1 = k then (k1, v) :: rest else (k1, v1) :: setKey rest k v

/-- `d[k]` read access on a JSON value: yields the field of an object,
nothing on every other shape. -/
def Json.getField : Json → String → Option Json
  | .obj fs, k => lookupKey fs k
  | _, _ => none

/-- `d[k] = v` on a JSON object (the scorer response is an object by the
provider's JSON-response mode). -/
def Json.setField : Json → String → Json → Json
  | .obj fs, k, v => .obj (setKey fs k v)
  | j, _, _ => j

/-- Embedding of the response-handling tail of
`app.services.consultation.score_consultation` (the prompt assembly that
precedes the provider call is pure string formatting and does not affect
the returned value).  The provider call's outcome is the parameter
`llmResponse`: `none` models a response body that `json.loads` rejects
(raising `JSONDecodeError`), `some j` models the parsed JSON value.  The
code then sets `scoring_result["timestamp"]` and returns the result with
no further validation; subscript assignment on a non-object raises
`TypeError`. -/
def score_consultation (timestamp : String) (llmResponse : Option Json) :
    Except String Json :=
  match llmResponse with
  | none => .error "JSONDecodeError"
  | some (.obj fields) => .ok (.obj (setKey fields "timestamp" (.str timestamp)))
  | some _ => .error "TypeError"

/-- Modelled from the spec: the numeric domain score that the spec's scoring
contract reads at `scores.<domain>.score` of a scorer response. -/
def domainScore (j : Json) (d : String) : Option ℚ :=
  match (j.getField "scores").bind (fun s => s.getField d) with
  | some ds =>
    match ds.getField "score" with
    | some (.num q) => some q
    | _ => none
  | none => none

/-- Modelled from the spec: the `overall_score` number of a scorer response. -/
def overallScore (j : Json) : Option ℚ :=
  match j.getField "overall_score" with
  | some (.num q) => some q
  | _ => none

/-- Modelled from the spec: one of the three coverage lists inside
`coverage_analysis`. -/
def coverageList (j : Json) (k : String) : List Json :=
  match (j.getField "coverage_analysis").bind (fun c => c.getField k) with
  | some (.arr xs) => xs
  | _ => []

/-- Modelled from the spec: a coverage item uses a status from the closed
three-value enumeration. -/
def coverageStatusOk (x : Json) : Bool :=
  match x.getField "coverage_status" with
  | some (.str s) => s = "COVERED" || s = "PARTIALLY_COVERED" || s = "NOT_COVERED"
  | _ => false

/-- Modelled from the spec: the constraints the spec imposes on every scorer
response accepted by the workflow — the three domain scores exist and lie in
[1, 5], `overall_score` is their arithmetic mean, and every coverage status
belongs to the closed enumeration. -/
def specScoringResponseOk (j : Json) : Bool :=
  match domainScore j "data_gathering", domainScore j "clinical_management",
      domainScore j "interpersonal_skills", overallScore j with
  | some a, some b, some c, some o =>
    decide (1 ≤ a) && decide (a ≤ 5) &&
    decide (1 ≤ b) && decide (b ≤ 5) &&
    decide (1 ≤ c) && decide (c ≤ 5) &&
    decide (o = (a + b + c) / 3) &&
    ((coverageList j "ice_coverage" ++ coverageList j "information_coverage" ++
      coverageList j "background_coverage").all coverageStatusOk)
  | _, _, _, _ => false

theorem lookupKey_setKey_of_ne (fs : List (String × Json)) (k k2 : String) (v : Json)
    (h : k2 ≠ k) : lookupKey (setKey fs k v) k2 = lookupKey fs k2 := by
  induction fs with
  | nil => simp [setKey, lookupKey, Ne.symm h]
  | cons p rest ih =>
    obtain ⟨k1, v1⟩ := p
    by_cases hk : k1 = k
    · subst hk
      simp [setKey, lookupKey, Ne.symm h]
    · simp [setKey, lookupKey, hk, ih]

/-- A scorer response that violates every part of the scoring contract:
`data_gathering` is 7 (outside [1, 5]), `overall_score` is 1 (not the mean
of 7, 3 and 3), and an ICE coverage item uses the status "MAYBE". -/
def badScoringPayload : Json :=
  .obj [("scores", .obj
          [("data_gathering", .obj [("score", .num 7)]),
           ("clinical_management", .obj [("score", .num 3)]),
           ("interpersonal_skills", .obj [("score", .num 3)])]),
        ("overall_score", .num 1),
        ("feedback", .str "ok"),
        ("coverage_analysis", .obj
          [("ice_coverage", .arr [.obj [("coverage_status", .str "MAYBE")]])])]

/-- Claim C1, counterexample: the scoring workflow returns, as a success, a
scorer response whose `data_gathering` score is 7 (outside [1, 5]), whose
`overall_score` is 1 (not the mean of its domain scores) and whose coverage
status is "MAYBE" (outside the closed enumeration) — the violating response
is accepted unchanged, not rejected as an error. -/
theorem c1_scoring_validation_counterexample :
    score_consultation "T0" (some badScoringPayload) =
      .ok (badScoringPayload.setField "timestamp" (Json.str "T0")) ∧
    specScoringResponseOk (badScoringPayload.setField "timestamp" (Json.str "T0")) = false := by
  exact ⟨rfl, rfl⟩

/-- Claim C1, amended: the scoring workflow rejects exactly the responses
`json.loads` cannot parse (and non-object values); every parsed JSON object
from the scorer — including one whose domain scores leave [1, 5], whose
`overall_score` differs from the mean of the domain scores, or whose
coverage status falls outside the closed enumeration — is returned as a
success with its `scores`, `overall_score`, `feedback` and
`coverage_analysis` fields taken over unvalidated and uncoerced. -/
theorem c1_scoring_accepts_unvalidated (ts : String) (fields : List (String × Json)) :
    (∃ out, score_consultation ts (some (.obj fields)) = .ok out ∧
      out.getField "scores" = (Json.obj fields).getField "scores" ∧
      out.getField "overall_score" = (Json.obj fields).getField "overall_score" ∧
      out.getField "feedback" = (Json.obj fields).getField "feedback" ∧
      out.getField "coverage_analysis" = (Json.obj fields).getField "coverage_analysis") ∧
    score_consultation ts none = .error "JSONDecodeError" := by
  refine ⟨⟨.obj (setKey fields "timestamp" (.str ts)), rfl, ?_, ?_, ?_, ?_⟩, rfl⟩
  · exact lookupKey_setKey_of_ne fields "timestamp" "scores" (.str ts) (by decide)
  · exact lookupKey_setKey_of_ne fields "timestamp" "overall_score" (.str ts) (by decide)
  · exact lookupKey_setKey_of_ne fields "timestamp" "feedback" (.str ts) (by decide)
  · exact lookupKey_setKey_of_ne fields "timestamp" "coverage_analysis" (.str ts) (by decide)

/-! ## Data model of the consultation router

`app/api/routers/consultation.py` works against the `PatientCase` variant of
the data model (`app/models/patient_case.py`, and the `Consultation` /
`PeerComment` rows it reads and writes).  Row identifiers and `created_at`
timestamps come from the absent `base_model` module; they are modelled as
`Nat` parameters supplied at each insert, matching the integer path
parameters the router declares. -/

/-- `app/models/user.py` — note: the model carries `first_name` and
`last_name` only; there is no `username` column. -/
structure User where
  id : String
  first_name : String
  last_name : String

/-- `app/models/patient_case.py`. -/
structure PatientCase where
  id : Nat
  age : Int
  presenting : String
  context : String
  created_at : Nat

/-- The `Consultation` row as written by the consultation router
(`user_id`, `patient_case_id`, `transcript`, scoring fields, recording
fields, `is_shared` defaulting to false). -/
structure Consultation where
  id : Nat
  user_id : String
  patient_case_id : Nat
  transcript : String
  overall_score : Json
  feedback : Json
  domain_scores : Json
  audio_recording : Option String
  duration_seconds : Option Int
  is_shared : Bool
  created_at : Nat

/-- The `PeerComment` row (`consultation_id`, `user_id`, `comment`). -/
structure PeerComment where
  id : Nat
  consultation_id : Nat
  user_id : String
  comment : String
  created_at : Nat

/-- The database session state seen by the consultation router: one list per
table, in insertion (creation) order.  The `peer_comments` relationship of a
consultation is the sublist of `comments` referencing it. -/
structure DB where
  users : List User
  patientCases : List PatientCase
  consultations : List Consultation
  comments : List PeerComment

/-- The `ScoreRequest` payload as read by `api_score_consultation`
(the handler reads `transcript`, `user_id` and the `age` / `presenting` /
`context` attributes of `case_details`). -/
structure ScoreRequest where
  transcript : String
  age : Int
  presenting : String
  context : String
  user_id : String

/-- Embedding of `api_score_consultation` (POST `/score-consultation`).
`llmResponse` is the scorer call's outcome as in `score_consultation`;
`freshCaseId` / `freshConsId` are the identifiers the database assigns to
newly inserted rows and `now` their creation timestamp.  Returns the session
state after the handler together with either the response payload or the
HTTP error status (every exception is caught and re-raised as a 500).
Reading `scores["overall_score"]`, `scores["feedback"]` or
`scores["scores"]` from a payload lacking the key raises `KeyError`, which
the handler also surfaces as a 500 — after the find-or-create of the
patient case has already committed. -/
def api_score_consultation (req : ScoreRequest) (llmResponse : Option Json)
    (ts : String) (freshCaseId freshConsId : Nat) (now : Nat) (db : DB) :
    DB × Except Nat Json :=
  match score_consultation ts llmResponse with
  | .error _ => (db, .error 500)
  | .ok scores =>
    let found := db.patientCases.find? fun c =>
      decide (c.age = req.age) && decide (c.presenting = req.presenting)
    let db1 : DB :=
      match found with
      | some _ => db
      | none =>
        { db with patientCases :=
            db.patientCases ++ [⟨freshCaseId, req.age, req.presenting, req.context, now⟩] }
    let case_id : Nat :=
      match found with
      | some case => case.id
      | none => freshCaseId
    match scores.getField "overall_score", scores.getField "feedback",
        scores.getField "scores" with
    | some ov, some fb, some ds =>
      let consultation : Consultation :=
        { id := freshConsId, user_id := req.user_id, patient_case_id := case_id,
          transcript := req.transcript, overall_score := ov, feedback := fb,
          domain_scores := ds, audio_recording := none, duration_seconds := none,
          is_shared := false, created_at := now }
      ({ db1 with consultations := db1.consultations ++ [consultation] },
        .ok (scores.setField "consultation_id" (.num freshConsId)))
    | _, _, _ => (db1, .error 500)

/-- Claim C2: every successful call to the score-consultation handler
appends exactly one new consultation row (the prefix of existing rows is
untouched, so no row is updated), the new row carrying the request's
transcript and user and the fresh identifier, and the response is the
parsed scoring payload augmented with that identifier under
`consultation_id`; user and comment rows are untouched. -/
theorem c2_score_creates_one_consultation (req : ScoreRequest) (llm : Option Json)
    (ts : String) (cid nid now : Nat) (db db2 : DB) (out : Json)
    (h : api_score_consultation req llm ts cid nid now db = (db2, .ok out)) :
    ∃ scores c,
      score_consultation ts llm = .ok scores ∧
      db2.consultations = db.consultations ++ [c] ∧
      c.id = nid ∧ c.user_id = req.user_id ∧ c.transcript = req.transcript ∧
      out = scores.setField "consultation_id" (.num nid) ∧
      db2.comments = db.comments ∧ db2.users = db.users := by
  unfold api_score_consultation at h
  split at h
  · simp at h
  · rename_i scores hs
    dsimp only at h
    split at h
    · rename_i ov fb ds hov hfb hds
      simp only [Prod.mk.injEq] at h
      obtain ⟨hdb, hout⟩ := h
      injection hout with hout2
      subst hdb
      subst hout2
      cases hf : db.patientCases.find? (fun c =>
          decide (c.age = req.age) && decide (c.presenting = req.presenting)) <;>
        simp only [hf] <;>
        (refine ⟨scores, _, hs, rfl, ?_, ?_, ?_, ?_, ?_, ?_⟩ <;> first | rfl | trivial)
    · simp at h

/-- The request of the concrete C2 scenario. -/
def c2Req : ScoreRequest := ⟨"T", 30, "headache", "ctx", "user-1"⟩

/-- The domain-scores object of the concrete C2 scenario. -/
def c2Scores0 : Json := .obj [("data_gathering", .obj [("score", .num 4)])]

/-- A well-formed scorer payload for the concrete C2 scenario. -/
def c2GoodPayload : Json :=
  .obj [("scores", c2Scores0), ("overall_score", .num 4), ("feedback", .str "good")]

/-- The state after a first scoring call on an empty database: one patient
case and one consultation. -/
def c2DB1 : DB :=
  { users := [], patientCases := [⟨1, 30, "headache", "ctx", 5⟩],
    consultations :=
      [⟨2, "user-1", 1, "T", .num 4, .str "good", c2Scores0, none, none, false, 5⟩],
    comments := [] }

/-- The state after scoring the identical transcript and case a second
time: a second consultation row, appended, never an update. -/
def c2DB2 : DB :=
  { c2DB1 with consultations := c2DB1.consultations ++
      [⟨4, "user-1", 1, "T", .num 4, .str "good", c2Scores0, none, none, false, 6⟩] }

/-- The response payload of the second C2 scoring call. -/
def c2Out2 : Json :=
  .obj [("scores", c2Scores0), ("overall_score", .num 4), ("feedback", .str "good"),
        ("timestamp", .str "TS"), ("consultation_id", .num 4)]

/-- Claim C2, witness: re-scoring the identical transcript and case on the
state left by a first scoring call appends exactly one further consultation
row. -/
theorem c2_score_creates_one_consultation_witness :
    ∃ scores c,
      score_consultation "TS" (some c2GoodPayload) = .ok scores ∧
      c2DB2.consultations = c2DB1.consultations ++ [c] ∧
      c.id = 4 ∧ c.user_id = c2Req.user_id ∧ c.transcript = c2Req.transcript ∧
      c2Out2 = scores.setField "consultation_id" (.num (4 : ℕ)) ∧
      c2DB2.comments = c2DB1.comments ∧ c2DB2.users = c2DB1.users :=
  c2_score_creates_one_consultation c2Req (some c2GoodPayload) "TS" 3 4 6 c2DB1 c2DB2
    c2Out2 rfl

/-! ## Peer-review endpoints -/

/-- Outcome of the add-comment endpoint: a `JSONResponse` error carrying an
HTTP status and message, or the success body with the new comment's
identifier and creation time. -/
inductive AddCommentResult where
  | err (stat : Nat) (msg : String)
  | ok (comment_id : Nat) (created_at : Nat)

/-- Embedding of `add_comment` (POST `/consultations/{id}/comments`):
look up the consultation by id; 404 when absent, 403 when not shared,
otherwise insert one `PeerComment` row and return its id and creation
time. -/
def add_comment (consultation_id : Nat) (user_id comment : String)
    (freshId now : Nat) (db : DB) : DB × AddCommentResult :=
  match db.consultations.find? (fun c => c.id == consultation_id) with
  | none => (db, .err 404 "Consultation not found")
  | some c =>
    if c.is_shared then
      ({ db with comments :=
          db.comments ++ [⟨freshId, consultation_id, user_id, comment, now⟩] },
        .ok freshId now)
    else
      (db, .err 403 "Consultation is not shared for peer review")

/-- Outcome of the share / unshare endpoints. -/
inductive ShareResult where
  | err (stat : Nat) (msg : String)
  | ok (message : String)

/-- Mutation of the first row matching the id, as `filter_by(...).first()`
followed by an attribute assignment and `commit` does. -/
def setSharedFirst (cid : Nat) (b : Bool) : List Consultation → List Consultation
  | [] => []
  | c :: rest =>
    if c.id == cid then { c with is_shared := b } :: rest
    else c :: setSharedFirst cid b rest

/-- Embedding of `unshare_consultation` (POST
`/consultations/{id}/unshare`): 404 when the consultation is absent,
otherwise set its `is_shared` flag to false. -/
def unshare_consultation (cid : Nat) (db : DB) : DB × ShareResult :=
  match db.consultations.find? (fun c => c.id == cid) with
  | none => (db, .err 404 "Consultation not found")
  | some _ =>
    ({ db with consultations := setSharedFirst cid false db.consultations },
      .ok "Consultation removed from peer review")

/-- One element of the list returned by the get-comments endpoint. -/
structure CommentEntry where
  id : Nat
  user_id : String
  username : String
  comment : String
  created_at : Nat

/-- Outcome of the get-comments endpoint. -/
inductive CommentsResult where
  | err (stat : Nat) (msg : String)
  | ok (comments : List CommentEntry)

/-- The comment-annotation loop of `get_comments`.  For each comment, the
code sets `username = "Anonymous"` and then, when `comment.user` resolves,
reads `comment.user.username` — an attribute the `User` model does not
define (`app/models/user.py` has only `first_name` and `last_name`), so the
access raises `AttributeError` at the first comment with a resolvable
user. -/
def renderComments (users : List User) : List PeerComment → Except String (List CommentEntry)
  | [] => .ok []
  | pc :: rest =>
    match users.find? (fun u => u.id == pc.user_id) with
    | some _ => .error "AttributeError: User has no attribute username"
    | none =>
      match renderComments users rest with
      | .error e => .error e
      | .ok entries => .ok (⟨pc.id, pc.user_id, "Anonymous", pc.comment, pc.created_at⟩ :: entries)

/-- Embedding of `get_comments` (GET `/consultations/{id}/comments`):
404 when the consultation is absent; otherwise iterate its `peer_comments`
(the comment rows referencing it, in creation order).  The `AttributeError`
raised inside the loop is caught by the handler's blanket `except` and
surfaced as a 500. -/
def get_comments (cid : Nat) (db : DB) : CommentsResult :=
  match db.consultations.find? (fun c => c.id == cid) with
  | none => .err 404 "Consultation not found"
  | some c =>
    match renderComments db.users (db.comments.filter (fun pc => pc.consultation_id == c.id)) with
    | .error e => .err 500 e
    | .ok entries => .ok entries

/-- Claim C3: add-comment returns 404 when the target consultation does not
exist; returns 403 and creates no comment row when it exists but is not
shared; and on the identical call with the consultation shared, appends
exactly one comment row and returns its identifier and creation time. -/
theorem c3_add_comment_gating (cid : Nat) (uid text : String) (fid now : Nat) (db : DB) :
    (db.consultations.find? (fun c => c.id == cid) = none →
      add_comment cid uid text fid now db = (db, .err 404 "Consultation not found")) ∧
    (∀ c, db.consultations.find? (fun x => x.id == cid) = some c → c.is_shared = false →
      add_comment cid uid text fid now db =
        (db, .err 403 "Consultation is not shared for peer review")) ∧
    (∀ c, db.consultations.find? (fun x => x.id == cid) = some c → c.is_shared = true →
      add_comment cid uid text fid now db =
        ({ db with comments := db.comments ++ [⟨fid, cid, uid, text, now⟩] },
          .ok fid now)) := by
  unfold add_comment
  refine ⟨fun h => ?_, fun c h hs => ?_, fun c h hs => ?_⟩ <;> rw [h] <;> simp [hs]

/-- A database without any consultation. -/
def c3DBempty : DB := ⟨[], [], [], []⟩

/-- A database whose single consultation (id 1) is not shared. -/
def c3DBunshared : DB :=
  ⟨[], [⟨1, 30, "p", "ctx", 0⟩],
    [⟨1, "u", 1, "T", .num 3, .str "f", .null, none, none, false, 5⟩], []⟩

/-- The same database after sharing consultation 1. -/
def c3DBshared : DB :=
  ⟨[], [⟨1, 30, "p", "ctx", 0⟩],
    [⟨1, "u", 1, "T", .num 3, .str "f", .null, none, none, true, 5⟩], []⟩

/-- Claim C3, witness: the three cases at concrete states — missing
consultation, unshared consultation, and the identical call after
sharing. -/
theorem c3_add_comment_gating_witness :
    add_comment 1 "u2" "hi" 7 9 c3DBempty =
      (c3DBempty, .err 404 "Consultation not found") ∧
    add_comment 1 "u2" "hi" 7 9 c3DBunshared =
      (c3DBunshared, .err 403 "Consultation is not shared for peer review") ∧
    add_comment 1 "u2" "hi" 7 9 c3DBshared =
      ({ c3DBshared with comments := c3DBshared.comments ++ [⟨7, 1, "u2", "hi", 9⟩] },
        .ok 7 9) :=
  ⟨(c3_add_comment_gating 1 "u2" "hi" 7 9 c3DBempty).1 rfl,
   (c3_add_comment_gating 1 "u2" "hi" 7 9 c3DBunshared).2.1 _ rfl rfl,
   (c3_add_comment_gating 1 "u2" "hi" 7 9 c3DBshared).2.2 _ rfl rfl⟩

theorem find_setSharedFirst (cid : Nat) (b : Bool) (l : List Consultation) :
    (setSharedFirst cid b l).find? (fun c => c.id == cid) =
      (l.find? (fun c => c.id == cid)).map (fun c => { c with is_shared := b }) := by
  induction l with
  | nil => rfl
  | cons c rest ih =>
    by_cases hc : c.id == cid
    · simp [setSharedFirst, List.find?, hc]
    · simp only [setSharedFirst, Bool.not_eq_true] at hc ⊢
      simp [List.find?, hc, ih]

theorem forall₂_setSharedFirst (cid : Nat) (l : List Consultation) :
    List.Forall₂ (fun a b => b = a ∨ b = { a with is_shared := false })
      l (setSharedFirst cid false l) := by
  induction l with
  | nil => exact .nil
  | cons x rest ih =>
    by_cases hx : x.id == cid
    · rw [setSharedFirst, if_pos hx]
      exact .cons (Or.inr rfl) (List.forall₂_same.mpr fun y _ => Or.inl rfl)
    · rw [setSharedFirst, if_neg hx]
      exact .cons (Or.inl rfl) ih

/-- Claim C4: unsharing an existing consultation keeps the comment table and
user table untouched, alters each consultation row at most by setting its
`is_shared` flag to false, and the subsequent list-comments call returns
exactly what it returned before the unshare. -/
theorem c4_unshare_keeps_comments (cid : Nat) (db : DB) (c : Consultation)
    (h : db.consultations.find? (fun x => x.id == cid) = some c) :
    (unshare_consultation cid db).1.comments = db.comments ∧
    (unshare_consultation cid db).1.users = db.users ∧
    List.Forall₂ (fun a b => b = a ∨ b = { a with is_shared := false })
      db.consultations (unshare_consultation cid db).1.consultations ∧
    get_comments cid ((unshare_consultation cid db).1) = get_comments cid db := by
  unfold unshare_consultation
  rw [h]
  dsimp only
  refine ⟨rfl, rfl, forall₂_setSharedFirst cid db.consultations, ?_⟩
  unfold get_comments
  simp only [find_setSharedFirst, h, Option.map]

/-- A database with one shared consultation (id 1) carrying two peer
comments; no user rows, so listing resolves no author. -/
def c4DB : DB :=
  ⟨[], [⟨1, 30, "p", "ctx", 0⟩],
    [⟨1, "u", 1, "T", .num 3, .str "f", .null, none, none, true, 5⟩],
    [⟨1, 1, "ua", "nice", 6⟩, ⟨2, 1, "ub", "good", 7⟩]⟩

/-- Claim C4, witness: unsharing consultation 1, which has two peer
comments, leaves the comment rows in place and list-comments unchanged. -/
theorem c4_unshare_keeps_comments_witness :
    (unshare_consultation 1 c4DB).1.comments = c4DB.comments ∧
    (unshare_consultation 1 c4DB).1.users = c4DB.users ∧
    List.Forall₂ (fun a b => b = a ∨ b = { a with is_shared := false })
      c4DB.consultations (unshare_consultation 1 c4DB).1.consultations ∧
    get_comments 1 ((unshare_consultation 1 c4DB).1) = get_comments 1 c4DB :=
  c4_unshare_keeps_comments 1 c4DB
    ⟨1, "u", 1, "T", .num 3, .str "f", .null, none, none, true, 5⟩ rfl

/-- A database where consultation 1 is shared, has one comment by user
"u1", and the row of user "u1" exists — the display-name lookup case. -/
def c9DBresolved : DB :=
  ⟨[⟨"u1", "Jane", "Doe"⟩], [⟨1, 30, "p", "ctx", 0⟩],
    [⟨1, "u1", 1, "T", .num 3, .str "f", .null, none, none, true, 5⟩],
    [⟨1, 1, "u1", "nice", 6⟩]⟩

/-- The same database with the comment authored by an id matching no user
row — the fallback case. -/
def c9DBunresolved : DB :=
  ⟨[⟨"u1", "Jane", "Doe"⟩], [⟨1, 30, "p", "ctx", 0⟩],
    [⟨1, "u1", 1, "T", .num 3, .str "f", .null, none, none, true, 5⟩],
    [⟨1, 1, "u2", "nice", 6⟩, ⟨2, 1, "u3", "good", 7⟩]⟩

/-- Claim C9: whenever a comment's authoring user row exists, `get_comments`
reads `comment.user.username`, an attribute the `User` model does not
define, so the handler returns a 500 instead of the comment annotated with
the author's display name; only comments whose author cannot be resolved
are returned, in creation order, under the "Anonymous" placeholder. -/
theorem c9_get_comments_username_crash :
    get_comments 1 c9DBresolved =
      .err 500 "AttributeError: User has no attribute username" ∧
    get_comments 1 c9DBunresolved =
      .ok [⟨1, "u2", "Anonymous", "nice", 6⟩, ⟨2, "u3", "Anonymous", "good", 7⟩] :=
  ⟨rfl, rfl⟩

/-! ## Consultation history -/

/-- One element of the history list returned by GET `/history`. -/
structure HistoryEntry where
  id : Nat
  timestamp : Nat
  case_age : Int
  case_presenting : String
  case_context : String
  scores : Json
  overall_score : Json
  feedback : Json
  has_recording : Bool
  duration_seconds : Option Int
  is_shared : Bool
  comment_count : Nat

/-- The dictionary `get_history` builds for one consultation row joined to
its patient case: the comment count is the length of `peer_comments` when
the consultation is shared and 0 otherwise. -/
def historyEntry (db : DB) (c : Consultation) (pc : PatientCase) : HistoryEntry :=
  { id := c.id, timestamp := c.created_at, case_age := pc.age,
    case_presenting := pc.presenting, case_context := pc.context,
    scores := c.domain_scores, overall_score := c.overall_score,
    feedback := c.feedback, has_recording := c.audio_recording.isSome,
    duration_seconds := if c.audio_recording.isSome then c.duration_seconds else none,
    is_shared := c.is_shared,
    comment_count :=
      if c.is_shared then
        (db.comments.filter fun pc2 => pc2.consultation_id == c.id).length
      else 0 }

/-- Insertion step of the newest-first ordering (`ORDER BY created_at
DESC`). -/
def insertByCreatedDesc (c : Consultation) : List Consultation → List Consultation
  | [] => [c]
  | x :: xs =>
    if x.created_at ≤ c.created_at then c :: x :: xs
    else x :: insertByCreatedDesc c xs

/-- Newest-first ordering of the consultation table. -/
def sortByCreatedDesc : List Consultation → List Consultation
  | [] => []
  | c :: rest => insertByCreatedDesc c (sortByCreatedDesc rest)

/-- Embedding of `get_history` (GET `/history`): all consultations joined
to their patient case (the inner join drops a consultation whose case row
is missing), newest first, each mapped to its history dictionary. -/
def get_history (db : DB) : List HistoryEntry :=
  (sortByCreatedDesc db.consultations).filterMap fun c =>
    (db.patientCases.find? fun p => p.id == c.patient_case_id).map (historyEntry db c)

/-- Claim C10: every history entry reported with `is_shared = false` has
`comment_count = 0`, however many peer-comment rows reference the
consultation — existing comments are hidden from the count while the
consultation is unshared. -/
theorem c10_unshared_history_comment_count (db : DB) (e : HistoryEntry)
    (h1 : e ∈ get_history db) (h2 : e.is_shared = false) :
    e.comment_count = 0 := by
  unfold get_history at h1
  rw [List.mem_filterMap] at h1
  obtain ⟨c, hc, he⟩ := h1
  cases hp : db.patientCases.find? fun p => p.id == c.patient_case_id with
  | none => rw [hp] at he; simp at he
  | some pc =>
    rw [hp] at he
    simp only [Option.map] at he
    injection he with he2
    subst he2
    simp only [historyEntry] at h2 ⊢
    simp [h2]

/-- A database whose single consultation is unshared yet referenced by two
peer comments. -/
def c10DB : DB :=
  ⟨[], [⟨1, 30, "p", "ctx", 0⟩],
    [⟨1, "u", 1, "T", .num 3, .str "f", .null, none, none, false, 5⟩],
    [⟨1, 1, "ua", "nice", 6⟩, ⟨2, 1, "ub", "good", 7⟩]⟩

/-- The single history entry `get_history` reports for `c10DB`. -/
def c10Entry : HistoryEntry :=
  { id := 1, timestamp := 5, case_age := 30, case_presenting := "p",
    case_context := "ctx", scores := .null, overall_score := .num 3,
    feedback := .str "f", has_recording := false, duration_seconds := none,
    is_shared := false, comment_count := 0 }

/-- Claim C10, witness: the unshared consultation of `c10DB` carries two
comment rows, yet its history entry reports `comment_count = 0`. -/
theorem c10_unshared_history_comment_count_witness :
    c10Entry.comment_count = 0 :=
  c10_unshared_history_comment_count c10DB c10Entry
    (by rw [show get_history c10DB = [c10Entry] from rfl]; exact List.mem_singleton.mpr rfl)
    rfl

/-! ## Case management (`app/api/routers/case.py`, `app/models/case.py`)

The case router works against the rich `Case` model: a case row with a
globally unique `case_number` and owned child rows. -/

/-- `ICEType` enumeration of `app/models/case.py`. -/
inductive ICEType where
  | IDEA | CONCERN | EXPECTATION | MIXED
deriving DecidableEq

/-- `DivulgenceType` enumeration of `app/models/case.py`. -/
inductive DivulgenceType where
  | FREELY_DIVULGED | SPECIFICALLY_ASKED
deriving DecidableEq

/-- The `Case` row (`case_number` unique, `presenting_complaint`
required). -/
structure Case where
  id : Nat
  case_number : String
  patient_name : Option String
  patient_age : Option Int
  presenting_complaint : String
  notes : Option String
  created_at : Nat

/-- The `ICE` row. -/
structure ICERow where
  id : Nat
  case_id : Nat
  ice_type : ICEType
  description : String

/-- The `BackgroundDetail` row. -/
structure BackgroundDetailRow where
  id : Nat
  case_id : Nat
  detail : String

/-- The `InformationDivulged` row. -/
structure InformationDivulgedRow where
  id : Nat
  case_id : Nat
  divulgence_type : DivulgenceType
  description : String

/-- The `DoctorInfo` row. -/
structure DoctorInfoRow where
  id : Nat
  case_id : Nat
  name : String
  age : Option Int
  past_medical_history : Option String
  current_medication : Option String
  context : Option String

/-- The session state of the case router: the case table and its child
tables. -/
structure RichDB where
  cases : List Case
  iceEntries : List ICERow
  backgroundDetails : List BackgroundDetailRow
  informationDivulged : List InformationDivulgedRow
  doctorInfos : List DoctorInfoRow

/-- `ICECreate` of `app/schema/case.py`. -/
structure ICECreate where
  ice_type : ICEType
  description : String

/-- `BackgroundDetailCreate` of `app/schema/case.py`. -/
structure BackgroundDetailCreate where
  detail : String

/-- `InformationDivulgedCreate` of `app/schema/case.py`. -/
structure InformationDivulgedCreate where
  divulgence_type : DivulgenceType
  description : String

/-- `DoctorInfoCreate` of `app/schema/case.py`. -/
structure DoctorInfoCreate where
  name : String
  age : Option Int
  past_medical_history : Option String
  current_medication : Option String
  context : Option String

/-- `CreateCaseRequest` of `app/schema/case.py`. -/
structure CreateCaseRequest where
  case_number : String
  patient_name : Option String
  patient_age : Option Int
  presenting_complaint : String
  notes : Option String
  ice_entries : List ICECreate
  background_details : List BackgroundDetailCreate
  information_divulged : List InformationDivulgedCreate
  doctor_info : Option DoctorInfoCreate

/-- The `str(e)` of the `IntegrityError` the unique index on
`cases.case_number` raises at the first commit. -/
def integrityErrorMsg : String :=
  "IntegrityError: UNIQUE constraint failed: cases.case_number"

/-- Embedding of `create_case` (POST `/cases/create_case`).  The handler
inserts the case row and commits; the unique index on `case_number` makes
that commit fail when a case with an equal number exists, and the blanket
`except` rolls back and re-raises as `HTTPException(500, str(e))` — errors
carry the HTTP status and detail.  Otherwise the child rows are inserted
(identifiers assigned sequentially from `freshId`) and the new case is
returned. -/
def create_case (req : CreateCaseRequest) (freshId now : Nat) (db : RichDB) :
    RichDB × Except (Nat × String) Case :=
  if db.cases.any (fun c => c.case_number == req.case_number) then
    (db, .error (500, integrityErrorMsg))
  else
    let newCase : Case :=
      ⟨freshId, req.case_number, req.patient_name, req.patient_age,
        req.presenting_complaint, req.notes, now⟩
    let nIce := req.ice_entries.length
    let nBg := req.background_details.length
    let nInfo := req.information_divulged.length
    let ices := req.ice_entries.enum.map fun p =>
      (⟨freshId + 1 + p.1, freshId, p.2.ice_type, p.2.description⟩ : ICERow)
    let bgs := req.background_details.enum.map fun p =>
      (⟨freshId + 1 + nIce + p.1, freshId, p.2.detail⟩ : BackgroundDetailRow)
    let infos := req.information_divulged.enum.map fun p =>
      (⟨freshId + 1 + nIce + nBg + p.1, freshId, p.2.divulgence_type,
        p.2.description⟩ : InformationDivulgedRow)
    let docs :=
      match req.doctor_info with
      | none => []
      | some d =>
        [(⟨freshId + 1 + nIce + nBg + nInfo, freshId, d.name, d.age,
           d.past_medical_history, d.current_medication, d.context⟩ : DoctorInfoRow)]
    ({ cases := db.cases ++ [newCase],
       iceEntries := db.iceEntries ++ ices,
       backgroundDetails := db.backgroundDetails ++ bgs,
       informationDivulged := db.informationDivulged ++ infos,
       doctorInfos := db.doctorInfos ++ docs },
      .ok newCase)

/-- A case table already holding case number "CASE-1". -/
def c5DB : RichDB :=
  ⟨[⟨1, "CASE-1", none, none, "cough", none, 0⟩], [], [], [], []⟩

/-- A creation request reusing the existing case number "CASE-1". -/
def c5Req : CreateCaseRequest :=
  ⟨"CASE-1", none, none, "headache", none, [], [], [], none⟩

/-- Claim C5, counterexample: creating a case whose `case_number` already
exists fails with HTTP status 500 — the generic persistence-failure status,
not a 4xx conflict status as the claim requires (the state is left
unchanged). -/
theorem c5_duplicate_case_number_counterexample :
    create_case c5Req 2 1 c5DB = (c5DB, .error (500, integrityErrorMsg)) ∧
    ¬(400 ≤ 500 ∧ 500 < 500) :=
  ⟨rfl, by decide⟩

/-- Claim C5, amended: creating a case whose `case_number` equals an
existing case's number fails — the unique index aborts the insert and the
handler rolls back, leaving every existing row unchanged — but the failure
surfaces as a generic 500 persistence error (the `IntegrityError` detail),
not as a distinct 4xx conflict status. -/
theorem c5_duplicate_case_number_rejected (req : CreateCaseRequest)
    (fid now : Nat) (db : RichDB)
    (h : db.cases.any (fun c => c.case_number == req.case_number) = true) :
    create_case req fid now db = (db, .error (500, integrityErrorMsg)) := by
  unfold create_case
  rw [if_pos h]

/-- Claim C5, witness: the duplicate-number request on the concrete table. -/
theorem c5_duplicate_case_number_rejected_witness :
    create_case c5Req 2 1 c5DB = (c5DB, .error (500, integrityErrorMsg)) :=
  c5_duplicate_case_number_rejected c5Req 2 1 c5DB rfl

/-! ## Call-transcript retrieval (`get_vapi_call`)

The transcript-normalization logic of GET `/vapi/call/{call_id}`, applied
to the provider's JSON body after a successful fetch.  Python string
operations are modelled on the character list underlying the string:
`str.strip` trims ASCII whitespace at both ends, `str.split("\n")` cuts at
every newline, `str.split(":", 1)` cuts at the first colon, `str.lower`
lowercases each character. -/

/-- The characters `str.strip()` removes. -/
def isPySpace (c : Char) : Bool :=
  c = ' ' || c = '\t' || c = '\n' || c = '\r' || c = '\x0b' || c = '\x0c'

/-- `str.strip()`. -/
def pyStrip (l : List Char) : List Char :=
  ((l.dropWhile isPySpace).reverse.dropWhile isPySpace).reverse

/-- `str.split("\n")`. -/
def splitOnNl : List Char → List (List Char)
  | [] => [[]]
  | c :: rest =>
    if c = '\n' then [] :: splitOnNl rest
    else
      match splitOnNl rest with
      | [] => [[c]]
      | h :: t => (c :: h) :: t

/-- `str.split(":", 1)` when the line contains a colon: the text before the
first colon and the text after it; `none` when `":" in line` is false. -/
def splitFirstColon : List Char → Option (List Char × List Char)
  | [] => none
  | c :: rest =>
    if c = ':' then some ([], rest)
    else (splitFirstColon rest).map fun p => (c :: p.1, p.2)

/-- `speaker.strip().lower() == "doctor"`. -/
def doctorSpeaker (sp : List Char) : Bool :=
  ((pyStrip sp).map Char.toLower) == "doctor".data

/-- One loop iteration of the string-transcript parser: a line containing a
colon becomes a `{speaker, text}` turn, a line without a colon is
skipped. -/
def lineTurn (line : List Char) : Option Json :=
  (splitFirstColon line).map fun p =>
    .obj [("speaker", .str (if doctorSpeaker p.1 then "human" else "assistant")),
          ("text", .str (String.mk (pyStrip p.2)))]

/-- The parsing loop over the lines of the stripped transcript string. -/
def parseLines : List (List Char) → List Json
  | [] => []
  | line :: rest =>
    match lineTurn line with
    | none => parseLines rest
    | some t => t :: parseLines rest

/-- The `artifact.transcript` string parser of `get_vapi_call`:
`transcript_str.strip().split("\n")`, one turn per line containing a
colon. -/
def parseTranscriptString (s : String) : List Json :=
  parseLines (splitOnNl (pyStrip s.data))

/-- Python truthiness of a JSON value (`if not transcript`). -/
def jsonTruthy : Json → Bool
  | .null => false
  | .bool b => b
  | .num q => decide (q ≠ 0)
  | .str s => s ≠ ""
  | .arr xs => !xs.isEmpty
  | .obj fs => !fs.isEmpty

/-- `msg["role"] == "human"`. -/
def isHumanRole (r : Json) : Bool :=
  match r with
  | .str s => s == "human"
  | _ => false

/-- `msg["role"] != "system"` is false exactly on the string "system". -/
def isSystemRole (r : Json) : Bool :=
  match r with
  | .str s => s == "system"
  | _ => false

/-- The `messages` branch: one turn per message carrying both `role` and
`message`, the speaker mapped to "human" only for role "human" and the raw
message value kept as text. -/
def messageTurns (msgs : List Json) : List Json :=
  msgs.filterMap fun m =>
    match m.getField "role", m.getField "message" with
    | some r, some msg =>
      some (.obj [("speaker", .str (if isHumanRole r then "human" else "assistant")),
                  ("text", msg)])
    | _, _ => none

/-- The `messagesOpenAIFormatted` fallback loop: one turn per non-system
message carrying both `role` and `content`, the raw role value kept as
speaker. -/
def openaiTurns (msgs : List Json) : List Json :=
  msgs.filterMap fun m =>
    match m.getField "role", m.getField "content" with
    | some r, some content =>
      if isSystemRole r then none
      else some (.obj [("speaker", r), ("text", content)])
    | _, _ => none

/-- Embedding of the transcript-extraction logic of `get_vapi_call`.  The
`if`/`elif` chain selects the first shape that is *present*: a top-level
`transcript` list; else `artifact.transcript` (parsed line by line when a
string, taken over raw otherwise); else the `messages` array.  Afterwards,
only if the accumulated transcript is falsy, the
`artifact.messagesOpenAIFormatted` array is appended.  Iterating a
non-array in either loop raises and is modelled as an error (the handler's
blanket `except` maps it to a 500 response). -/
def extract_transcript (call_data : Json) : Except String Json :=
  let base : Except String Json :=
    match call_data.getField "transcript" with
    | some (.arr xs) => .ok (.arr xs)
    | _ =>
      match (call_data.getField "artifact").bind (fun a => a.getField "transcript") with
      | some (.str s) => .ok (.arr (parseTranscriptString s))
      | some other => .ok other
      | none =>
        match call_data.getField "messages" with
        | some (.arr msgs) => .ok (.arr (messageTurns msgs))
        | some _ => .error "TypeError: messages is not iterable"
        | none => .ok (.arr [])
  match base with
  | .error e => .error e
  | .ok t =>
    if jsonTruthy t then .ok t
    else
      match (call_data.getField "artifact").bind (fun a => a.getField "messagesOpenAIFormatted") with
      | some (.arr msgs) =>
        match t with
        | .arr ts => .ok (.arr (ts ++ openaiTurns msgs))
        | _ => .error "AttributeError: transcript has no append"
      | some _ => .error "TypeError: messagesOpenAIFormatted is not iterable"
      | none => .ok t

/-- The fallback result for a call record whose accumulated transcript is
the empty list: only `artifact.messagesOpenAIFormatted` is consulted. -/
def openaiFallback (call_data : Json) : Except String Json :=
  match (call_data.getField "artifact").bind (fun a => a.getField "messagesOpenAIFormatted") with
  | some (.arr msgs) => .ok (.arr (openaiTurns msgs))
  | some _ => .error "TypeError: messagesOpenAIFormatted is not iterable"
  | none => .ok (.arr [])

/-- A provider record whose top-level `transcript` is present but an empty
list, while `artifact.transcript` holds a parseable non-empty string. -/
def c6CallData : Json :=
  .obj [("transcript", .arr []),
        ("artifact", .obj [("transcript", .str "Doctor: hello")])]

/-- Claim C6, counterexample: the top-level `transcript` shape is present
but yields the empty turn list, and the normalizer still returns the empty
list even though the later `artifact.transcript` shape would yield one
turn — later shapes are not attempted when an earlier shape is present but
empty. -/
theorem c6_priority_order_counterexample :
    extract_transcript c6CallData = .ok (.arr []) ∧
    (parseTranscriptString "Doctor: hello").length = 1 :=
  ⟨rfl, rfl⟩

/-- Claim C6, amended: the normalizer selects the first *present* shape
among top-level `transcript` list, `artifact.transcript` and `messages`,
regardless of whether that shape yields a non-empty turn list; only the
`messagesOpenAIFormatted` fallback is gated on the result being empty.  In
particular, when the top-level `transcript` field holds a list, that list
is returned as-is when non-empty, and when empty only the
`messagesOpenAIFormatted` fallback is additionally attempted —
`artifact.transcript` and `messages` are skipped either way. -/
theorem c6_first_present_shape (cd : Json) (xs : List Json)
    (h : cd.getField "transcript" = some (.arr xs)) :
    (xs ≠ [] → extract_transcript cd = .ok (.arr xs)) ∧
    (xs = [] → extract_transcript cd = openaiFallback cd) := by
  constructor
  · intro hne
    unfold extract_transcript
    rw [h]
    simp [jsonTruthy, hne]
  · rintro rfl
    unfold extract_transcript openaiFallback
    rw [h]
    simp only [jsonTruthy, List.isEmpty_nil, Bool.not_true, if_neg]
    cases hb : (cd.getField "artifact").bind (fun a => a.getField "messagesOpenAIFormatted") with
    | none => rfl
    | some v => cases v <;> rfl

/-- Claim C6, witness: on the record whose present top-level transcript is
the empty list, the normalizer consults only the OpenAI-formatted fallback
(absent here), skipping the parseable `artifact.transcript` string. -/
theorem c6_first_present_shape_witness :
    extract_transcript c6CallData = openaiFallback c6CallData :=
  (c6_first_present_shape c6CallData [] rfl).2 rfl

/-- A transcript string whose middle line is non-empty but contains no
colon. -/
def c7Transcript : String := "Doctor: hi\nan aside without separator\nPatient: yo"

/-- Claim C7, counterexample: the transcript string has three non-empty
lines, yet normalization produces only two turns — the colon-free line
yields no turn, refuting "one turn per non-empty line". -/
theorem c7_turn_per_line_counterexample :
    (parseTranscriptString c7Transcript).length = 2 ∧
    ((splitOnNl (pyStrip c7Transcript.data)).filter fun l => !l.isEmpty).length = 3 :=
  ⟨rfl, rfl⟩

theorem parseLines_eq_filterMap (ls : List (List Char)) :
    parseLines ls =
      (ls.filter fun l => (splitFirstColon l).isSome).map fun l =>
        Json.obj
          [("speaker", .str (if doctorSpeaker ((splitFirstColon l).getD ([], [])).1
              then "human" else "assistant")),
           ("text", .str (String.mk (pyStrip ((splitFirstColon l).getD ([], [])).2)))] := by
  induction ls with
  | nil => rfl
  | cons line rest ih =>
    cases hc : splitFirstColon line with
    | none => simp [parseLines, lineTurn, hc, ih]
    | some p => simp [parseLines, lineTurn, hc, ih]

/-- Claim C7, amended: for every transcript string in `artifact.transcript`,
normalization produces one `{speaker, text}` turn per line *containing a
colon* (non-empty lines without a colon are skipped); the turn's speaker is
"human" exactly when the text before the first colon, trimmed and
lowercased, is "doctor", and "assistant" otherwise, and its text is the
remainder of the line after the first colon, trimmed. -/
theorem c7_turn_per_colon_line (s : String) :
    parseTranscriptString s =
      ((splitOnNl (pyStrip s.data)).filter fun l => (splitFirstColon l).isSome).map fun l =>
        Json.obj
          [("speaker", .str (if doctorSpeaker ((splitFirstColon l).getD ([], [])).1
              then "human" else "assistant")),
           ("text", .str (String.mk (pyStrip ((splitFirstColon l).getD ([], [])).2)))] :=
  parseLines_eq_filterMap (splitOnNl (pyStrip s.data))

/-! ## User registration (`app/api/routers/user.py`) -/

/-- Outcome of the call to the external auth service inside `register`:
success yields the auth-assigned user id and token; `httpStatusErr` is an
`httpx.HTTPError` carrying a response (so `raise_for_status` failures);
`transportErr` an `httpx.HTTPError` without a response; `otherErr` any
other exception during the auth step. -/
inductive AuthResult where
  | ok (user_id : String) (access_token : String)
  | httpStatusErr (stat : Nat) (body : String)
  | transportErr (msg : String)
  | otherErr (msg : String)

/-- Whether the auth call succeeded. -/
def AuthResult.isOk : AuthResult → Bool
  | .ok .. => true
  | _ => false

/-- The `CreateUser` request fields the handler uses locally (the password
fields are only forwarded to the auth service). -/
structure RegisterReq where
  first_name : String
  last_name : String
  email : String

/-- Outcome of the register endpoint: an `HTTPException` with status and
detail, or the created-user body. -/
inductive RegisterResult where
  | err (stat : Nat) (detail : String)
  | created (id first_name last_name email access_token : String)

/-- Embedding of `register` (POST `/users/register`): first the auth
service is called; every auth failure is re-raised as an `HTTPException`
(with the auth response's status and body when one exists, 500 otherwise)
before any database access.  Only on auth success is the local `User` row
inserted — `commitOk` is the outcome of that commit, whose failure rolls
the insert back and surfaces a 500. -/
def register (req : RegisterReq) (auth : AuthResult) (commitOk : Bool) (db : DB) :
    DB × RegisterResult :=
  match auth with
  | .httpStatusErr s body => (db, .err s body)
  | .transportErr m => (db, .err 500 m)
  | .otherErr m => (db, .err 500 ("Auth service error: " ++ m))
  | .ok uid tok =>
    if commitOk then
      ({ db with users := db.users ++ [⟨uid, req.first_name, req.last_name⟩] },
        .created uid req.first_name req.last_name req.email tok)
    else
      (db, .err 500 "Failed to create user record")

/-- Claim C8: the auth call precedes any local write, and on any auth
failure (non-success status or unreachable service) the endpoint returns an
error with the whole local state — in particular the user table —
unchanged; a local row appears only on auth success. -/
theorem c8_no_user_row_on_auth_failure (req : RegisterReq) (auth : AuthResult)
    (commitOk : Bool) (db : DB) (h : auth.isOk = false) :
    (register req auth commitOk db).1 = db ∧
    (∃ s d, (register req auth commitOk db).2 = .err s d) := by
  cases auth with
  | ok uid tok => simp [AuthResult.isOk] at h
  | httpStatusErr s body => exact ⟨rfl, s, body, rfl⟩
  | transportErr m => exact ⟨rfl, 500, m, rfl⟩
  | otherErr m => exact ⟨rfl, 500, "Auth service error: " ++ m, rfl⟩

/-- A database holding one unrelated user row. -/
def c8DB : DB := ⟨[⟨"u0", "A", "B"⟩], [], [], []⟩

/-- The concrete C8 registration request. -/
def c8Req : RegisterReq := ⟨"Jane", "Doe", "jane@example.org"⟩

/-- Claim C8, witness: the auth service rejecting the registration (e.g.
mismatched passwords, status 400) leaves the user table untouched and
surfaces an error. -/
theorem c8_no_user_row_on_auth_failure_witness :
    (register c8Req (.httpStatusErr 400 "passwords do not match") true c8DB).1 = c8DB ∧
    (∃ s d, (register c8Req (.httpStatusErr 400 "passwords do not match") true c8DB).2 =
      .err s d) :=
  c8_no_user_row_on_auth_failure c8Req (.httpStatusErr 400 "passwords do not match")
    true c8DB rfl

end SCA
